import Mathlib

/-!
Verification development for the cpp-matmul repository.

The core of the repository is a CPU-topology-aware thread pool
(src/MatrixMult/ThreadPool.h): a pool of CoreHandlers, one per physical
core, each owning worker threads pinned to the same core.  This file
gives a shallow embedding of the parts of the code relevant to the
frozen claims and proves or refutes each claim against it.

Modelling conventions:
- pure C++ functions become Lean functions;
- the process-wide topology cache (QueryHWCores) becomes explicit state
  passing over a TopoState record, with the OS query modelled as an
  environment function from query number to outcome;
- the CoreHandler / WorkerThread loops become a step function on an
  explicit PoolState record, driven by a list of actions (handler step,
  worker step, Add, Close) that models an arbitrary interleaving of the
  threads; both condition-variable waits in the code are if-based waits
  without a predicate, so a waiting thread may resume at any time - this
  covers the notifications sent by Add, Close, the fan-out and
  CloseChildThreads as well as the spurious wakeups that
  std::condition_variable is permitted to deliver - and on resuming it
  continues exactly where the code does (the handler at the Pop of line
  357, a worker at the slot-function load of line 402);
- unsigned 32-bit machine arithmetic is modelled on Nat with explicit
  reduction mod 2 ^ 32 where wrap-around matters.
-/

namespace CppMatmul

/-- Reduction of a C++ int value to the unsigned 32-bit value it converts to
(wrap-around conversion). -/
def toUnsigned32 (x : Int) : Nat := (x % (2 ^ 32 : Int)).toNat

/-! ### The job queue

Model of the Queue class, ThreadPool.h lines 258-287.  The mutex only
serialises accesses; the data content is a plain FIFO queue, modelled as a
Lean list whose head is the front of the queue. -/

namespace Queue

/-- Queue::Push (lines 264-267): m_queue.push(element) appends at the tail. -/
def Push (q : List α) (x : α) : List α := q ++ [x]

/-- Queue::Pop (lines 269-277): if the queue is non-empty, write the front
element to the out parameter, pop it and return true; otherwise return
false.  The bool-and-out-parameter pair is modelled as an Option paired
with the remaining queue. -/
def Pop : List α → Option α × List α
  | [] => (none, [])
  | x :: xs => (some x, xs)

/-- Queue::Size (lines 279-282). -/
def Size (q : List α) : Nat := q.length

end Queue

/-! ### Job submission

Model of HWLocalThreadPool::Add, ThreadPool.h lines 216-219.  Add pushes
the submitted job pointer and notifies one handler; there is no check of
any kind.  Jobs are represented by their slot count, which is the only
attribute the claim about Add mentions. -/

/-- The pool state visible to Add: the configured slot count per job and
the queue of submitted jobs (each represented by its slot count). -/
structure AddState where
  threadsPerCore : Nat
  queue : List Nat
deriving DecidableEq, Repr

/-- HWLocalThreadPool::Add (lines 216-219): m_queue.Push(F) followed by
notify_one.  The job is enqueued unconditionally; no slot-count
validation appears anywhere in the function. -/
def HWLocalThreadPool.Add (p : AddState) (jobSlotCount : Nat) : AddState :=
  { p with queue := Queue.Push p.queue jobSlotCount }

/-! ### Shutdown

Model of HWLocalThreadPool::Close (lines 223-238) and the destructor
(lines 211-214).  Close sets the flags, joins every still-joinable handler
thread, then unconditionally frees the CoreHandler array and deletes the
thread array.  The destructor calls Close only if m_terminate is not
already set.  The model counts joins and array releases so that
double-join / double-free can be stated. -/

/-- Pool state relevant to shutdown. -/
structure ShutdownState where
  terminate : Bool
  waitToFinish : Bool
  /-- number of handler threads that are still joinable -/
  joinableThreads : Nat
  /-- total joins performed so far -/
  joinsPerformed : Nat
  /-- number of times the free(m_coreHandlers) / delete[] m_coreHandlerThreads
  pair at lines 236-237 has executed -/
  releases : Nat
deriving DecidableEq, Repr

/-- HWLocalThreadPool::Close (lines 223-238): set m_terminate and
m_waitToFinish, notify all handlers, join each joinable handler thread,
then free the handler array and delete the thread array.  Nothing guards
against a repeated call. -/
def HWLocalThreadPool.Close (p : ShutdownState) (finishQueue : Bool) : ShutdownState :=
  { p with
    terminate := true
    waitToFinish := finishQueue
    joinsPerformed := p.joinsPerformed + p.joinableThreads
    joinableThreads := 0
    releases := p.releases + 1 }

/-- The destructor (lines 211-214): call Close() only when m_terminate is
not yet set. -/
def HWLocalThreadPool.destroy (p : ShutdownState) : ShutdownState :=
  if p.terminate = false then HWLocalThreadPool.Close p true else p

/-- A pool as constructed, before any shutdown: flags clear, all handler
threads joinable (two here), nothing joined or released yet. -/
def freshShutdownState : ShutdownState :=
  { terminate := false, waitToFinish := false, joinableThreads := 2
    joinsPerformed := 0, releases := 0 }

/-! ### Construction-parameter resolution

Model of the parameter handling in the constructor, ThreadPool.h lines 182-208
and the CoreHandler constructor lines 291-305.  The template parameter
NumOfCoresToUse resolves to the physical core count when non-positive
(lines 191-194).  The template parameter NumThreadsPerCore is used as-is
everywhere: CoreHandler stores m_numChildThreads = NumThreadsPerCore - 1
into an unsigned field (line 292) and allocates the job array with
NumThreadsPerCore slots (line 294); no derivation from the logical
processor count exists anywhere in the file. -/

/-- Lines 191-194: m_numCoreHandlers is m_numHWCores when the template
parameter is non-positive, otherwise the parameter itself. -/
def resolveNumCoreHandlers (numOfCoresToUse : Int) (numHWCores : Nat) : Nat :=
  if numOfCoresToUse ≤ 0 then numHWCores else numOfCoresToUse.toNat

/-- The per-core thread count the pool actually uses: the template
parameter NumThreadsPerCore, taken as-is (lines 292, 294, 360). -/
def poolThreadsPerCore (numThreadsPerCore : Int) : Int := numThreadsPerCore

/-- Line 292: m_numChildThreads is the unsigned field receiving
NumThreadsPerCore - 1 (wrap-around conversion for non-positive values). -/
def coreHandlerNumChildThreads (numThreadsPerCore : Int) : Nat :=
  toUnsigned32 (numThreadsPerCore - 1)

/-! ### RoundUpPwr2

Model of RoundUpPwr2, MatrixGenerator.cpp lines 62-65:
(val + (pwr2 - 1)) AND (NOT (pwr2 - 1)) on unsigned 32-bit values.
Bitwise NOT on a 32-bit unsigned value m is (2 ^ 32 - 1) XOR m. -/

/-- RoundUpPwr2 (MatrixGenerator.cpp lines 62-65) on unsigned 32-bit
values (arguments assumed < 2 ^ 32; the sum is reduced mod 2 ^ 32 as the
machine addition would be). -/
def RoundUpPwr2 (val pwr2 : Nat) : Nat :=
  ((val + (pwr2 - 1)) % 2 ^ 32) &&& ((2 ^ 32 - 1) ^^^ ((pwr2 - 1) % 2 ^ 32))

/-! ### The topology query layer

Model of namespace QueryHWCores, ThreadPool.h lines 51-180.  The
process-wide mutable statics (cache flag, core count, mask map) become a
TopoState record threaded through the calls.  The underlying OS call
GetLogicalProcessorInformation is modelled by an environment function
giving, for each execution of the call (counted by osCalls), either the
list of per-physical-core processor masks (success) or none (failure).

The crucial detail of _GetSysLPMap (line 117) is that retCode is a
function-local STATIC: the OS call is the initializer of that static, so
it executes only the first time the function ever runs; every later run
reuses the retCode of the first run and never re-executes the OS call. -/

/-- Environment: outcome of the k-th execution of the underlying OS
topology query.  Some masks = success, none = failure. -/
structure TopoEnv where
  queryResults : Nat → Option (List Nat)

/-- The statics of namespace QueryHWCores plus the function-local static
of _GetSysLPMap, and a counter of actual OS-query executions. -/
structure TopoState where
  /-- static char cache (line 52) -/
  cache : Bool
  /-- static unsigned numHWCores (line 53); zero-initialised -/
  numHWCores : Nat
  /-- static ULONG_PTR map (line 54); initially NULL -/
  map : Option (List Nat)
  /-- the function-local static retCode of _GetSysLPMap (line 117);
  none while its (dynamic) initialisation has not yet run -/
  staticRetCode : Option Bool
  /-- number of executions of the underlying OS query so far -/
  osCalls : Nat

/-- The process-start topology state: cache clear, map NULL, the
function-local static not yet initialised, no OS calls made. -/
def TopoState.start : TopoState :=
  { cache := false, numHWCores := 0, map := none, staticRetCode := none, osCalls := 0 }

/-- QueryHWCores::_GetSysLPMap (lines 109-137).  The static initialiser at
line 117 runs the OS query only on the very first execution of the
function; afterwards retCode keeps its first value and the query is not
re-executed.  On retCode false the function returns GetLastError()
(modelled as the fixed nonzero code 87); on success it stores the mask
map and the core count and returns 0.  The buffer-holding masks are those
of the query execution; re-running the body with a previously successful
static retCode would read an uninitialised local buffer (C++ UB) - that
path is unreachable from TopoState.start because the cache flag is set on
success, and the model then uses an empty buffer. -/
def _GetSysLPMap (env : TopoEnv) (s : TopoState) : TopoState × Nat :=
  let init : TopoState × Bool × Option (List Nat) :=
    match s.staticRetCode with
    | none =>
      match env.queryResults s.osCalls with
      | some masks =>
        ({ s with staticRetCode := some true, osCalls := s.osCalls + 1 }, true, some masks)
      | none =>
        ({ s with staticRetCode := some false, osCalls := s.osCalls + 1 }, false, none)
    | some r => (s, r, none)
  let s1 := init.1
  let retCode := init.2.1
  let buffer := init.2.2
  if retCode = false then (s1, 87)
  else
    let masks := buffer.getD []
    ({ s1 with numHWCores := masks.length, map := some masks }, 0)

/-- QueryHWCores::GetNumHWCores (lines 157-166): if the cache flag is
clear, run _GetSysLPMap; on success set the cache flag, on failure return
-1.  With the cache flag set, return the cached count. -/
def GetNumHWCores (env : TopoEnv) (s : TopoState) : TopoState × Int :=
  if s.cache = false then
    let r := _GetSysLPMap env s
    if r.2 = 0 then
      let s1 := { r.1 with cache := true }
      (s1, (s1.numHWCores : Int))
    else (r.1, -1)
  else (s, (s.numHWCores : Int))

/-- QueryHWCores::GetProcessorMask (lines 140-155): fill the cache as in
GetNumHWCores (propagating the error code of the query on failure), then
return -1 if the index is out of range, else 0 with the mask written to
the out parameter.  The int-retcode-and-out-parameter pair is modelled as
an Except. -/
def GetProcessorMask (env : TopoEnv) (s : TopoState) (n : Nat) :
    TopoState × Except Int Nat :=
  if s.cache = false then
    let r := _GetSysLPMap env s
    if r.2 = 0 then
      let s1 := { r.1 with cache := true }
      if s1.numHWCores ≤ n then (s1, .error (-1))
      else (s1, .ok ((s1.map.getD []).getD n 0))
    else (r.1, .error (r.2 : Int))
  else
    if s.numHWCores ≤ n then (s, .error (-1))
    else (s, .ok ((s.map.getD []).getD n 0))

/-! ### Pool construction

Model of the HWLocalThreadPool constructor, lines 186-209.  It resolves
the handler count, allocates the handler and thread arrays, then for each
index i queries the processor mask; on a mask-query failure it executes
the assert at line 203 and returns.  Under NDEBUG
the assert expands to nothing (and MSVC ignores the extra macro argument
with warning C4002), so the constructor simply returns early, leaving the
remaining CoreHandlers unconstructed and their threads unstarted while
the pool object itself is fully returned to the caller. -/

/-- The pool object as the constructor leaves it. -/
structure CtorResult where
  /-- m_numHWCores (unsigned; receives the int from GetNumHWCores, which is -1 on
  failure and wraps) -/
  numHWCores : Nat
  /-- m_numCoreHandlers -/
  numCoreHandlers : Nat
  /-- affinity masks of the CoreHandlers actually constructed (each with
  its supervising thread started), in index order -/
  handlers : List Nat
  /-- true when the constructor hit the mask-query failure path (assert
  plus early return at lines 203-204) -/
  returnedEarly : Bool
deriving DecidableEq, Repr

/-- The construction loop of lines 199-208 over the remaining indices:
query each mask, construct the CoreHandler and start its thread; on the
first failure, return early. -/
def ctorLoop (env : TopoEnv) :
    List Nat → TopoState → List Nat → TopoState × List Nat × Bool
  | [], t, acc => (t, acc, false)
  | i :: rest, t, acc =>
    match GetProcessorMask env t i with
    | (t1, .ok mask) => ctorLoop env rest t1 (acc ++ [mask])
    | (t1, .error _) => (t1, acc, true)

/-- The HWLocalThreadPool constructor (lines 186-209). -/
def HWLocalThreadPool.construct (env : TopoEnv) (t : TopoState)
    (numOfCoresToUse : Int) : TopoState × CtorResult :=
  let q := GetNumHWCores env t
  let numHW := toUnsigned32 q.2
  let numCH := resolveNumCoreHandlers numOfCoresToUse numHW
  let l := ctorLoop env (List.range numCH) q.1 []
  (l.1,
   { numHWCores := numHW, numCoreHandlers := numCH
     handlers := l.2.1, returnedEarly := l.2.2 })

/-- An environment whose first OS query fails and whose later queries
would succeed, reporting two physical cores. -/
def envFailThenOk : TopoEnv :=
  { queryResults := fun k => if k = 0 then none else some [3, 12] }

/-- An environment whose OS query always succeeds reporting exactly one
physical core with mask 3. -/
def envOneCore : TopoEnv :=
  { queryResults := fun _ => some [3] }

/-! ### One core group as a transition system

Model of CoreHandler::operator() (lines 342-383), WaitForChildThreads
(lines 307-322), CloseChildThreads (lines 324-340) and
ThreadHandler::operator() (lines 390-415), together with the pool-level
queue, terminate and waitToFinish flags they read, for one CoreHandler
with n worker threads (n = m_numChildThreads = NumThreadsPerCore - 1).

Each thread is broken at its synchronisation points into phases; one
action executes the code between two such points atomically.  Jobs are
abstracted to their count in the queue; each successful Pop gives the
dequeued job the next sequence number (curSeq), and every slot execution
is recorded in a history list as (job sequence number, slot index,
executing thread).  Condition-variable waits resume as described in the
file header. -/

/-- Program points of the CoreHandler dispatch loop. -/
inductive HPhase where
  /-- holding the queue mutex at line 348, about to test the exit
  condition (and, if staying, to wait or pop under the same lock) -/
  | check
  /-- blocked in the queue condition-variable wait at line 354 -/
  | waiting
  /-- dequeued with m_numChildThreads < 1, about to run m_job[0] at line 362 -/
  | runSolo
  /-- dequeued, about to set the online flags and notify at lines 366-371 -/
  | fanning
  /-- flags set, about to run m_job[0] at line 374 -/
  | run0
  /-- inside WaitForChildThreads (lines 307-322) -/
  | drain
  /-- after the loop: inside CloseChildThreads (lines 324-340), terminate
  flag for the children already set, joining them -/
  | closing
  /-- CloseChildThreads returned; operator() exits -/
  | stopped
deriving DecidableEq, Repr

/-- Program points of a WorkerThread (ThreadHandler) loop.  The loaded
phase records the sequence number of the job whose slot function the
thread read at line 402 (func = m_parent->m_job[m_jobSlot]). -/
inductive WPhase where
  /-- holding the core mutex at line 396, about to test m_terminate and
  the online flag -/
  | check
  /-- blocked in the activation condition-variable wait at line 399 -/
  | waiting
  /-- past the lock block: slot function loaded (line 402), about to read
  the online flag (line 405) and, if set, run the function (line 408) -/
  | loaded (seq : Nat)
  /-- function executed; about to clear the online flag and notify the
  core (lines 409-411) -/
  | clearing
  /-- loop exited (break at line 397) -/
  | stopped
deriving DecidableEq, Repr

/-- Which thread executed a slot. -/
inductive Exec where
  /-- the CoreHandler thread itself -/
  | core
  /-- the WorkerThread with identity index i (m_id = i, m_jobSlot = i + 1) -/
  | worker (i : Nat)
deriving DecidableEq, Repr

/-- One recorded slot execution: which job (by dequeue sequence number),
which slot of it, and which thread ran it. -/
structure Event where
  seq : Nat
  slot : Nat
  ex : Exec
deriving DecidableEq, Repr

/-- State of one core group plus the pool-level fields it reads. -/
structure PoolState where
  handler : HPhase
  /-- phase of each WorkerThread, indexed by m_id -/
  workers : List WPhase
  /-- m_childThreadOnline -/
  online : List Bool
  /-- CoreHandler::m_terminate (set by CloseChildThreads, line 330) -/
  coreTerminate : Bool
  /-- m_queue.Size() -/
  queue : Nat
  /-- pool m_terminate -/
  terminate : Bool
  /-- pool m_waitToFinish -/
  waitToFinish : Bool
  /-- number of jobs this handler has dequeued; also the sequence number
  of the most recently dequeued job (numbering starts at 1) -/
  curSeq : Nat
  /-- recorded slot executions, in the order they happened -/
  hist : List Event
deriving DecidableEq, Repr

/-- The exit test at lines 348-349:
m_terminate and not (m_waitToFinish and m_queue.Size() > 0). -/
def shouldExit (terminate waitToFinish : Bool) (queueSize : Nat) : Bool :=
  terminate && !(waitToFinish && decide (queueSize > 0))

/-- All online flags clear: the exit condition of the WaitForChildThreads
scan (lines 313-321). -/
def allOffline (s : PoolState) : Bool := s.online.all (fun b => !b)

/-- A successful Pop at line 357 (the queue is non-empty): remove one job,
give it the next sequence number, and proceed to line 360: with
m_numChildThreads < 1 straight to m_job[0](), otherwise to the fan-out. -/
def popJob (s : PoolState) : PoolState :=
  { s with
    queue := s.queue - 1
    curSeq := s.curSeq + 1
    handler := if s.workers.length = 0 then .runSolo else .fanning }

/-- One step of the CoreHandler thread from its current phase. -/
def hstep (s : PoolState) : PoolState :=
  match s.handler with
  | .check =>
    if shouldExit s.terminate s.waitToFinish s.queue then
      -- break (line 351), then CloseChildThreads sets m_terminate for the
      -- children and notifies them (lines 329-331)
      { s with handler := .closing, coreTerminate := true }
    else if s.queue = 0 then
      { s with handler := .waiting }      -- wait at line 354
    else
      popJob s                            -- Pop at line 357, still under the lock
  | .waiting =>
    -- woken by notify_one from Add or notify_all from Close; execution
    -- resumes after the wait and reaches the Pop at line 357 without
    -- re-testing the exit condition
    if s.queue = 0 then
      { s with handler := .check }        -- Pop returned false; loop again
    else
      popJob s
  | .runSolo =>
    -- line 362: m_job[0]() on the handler thread
    { s with hist := s.hist ++ [⟨s.curSeq, 0, .core⟩], handler := .check }
  | .fanning =>
    -- lines 366-371: set every online flag, notify_all the workers
    { s with online := List.replicate s.online.length true, handler := .run0 }
  | .run0 =>
    -- line 374: m_job[0]() on the handler thread
    { s with hist := s.hist ++ [⟨s.curSeq, 0, .core⟩], handler := .drain }
  | .drain =>
    -- WaitForChildThreads returns exactly when every online flag is clear
    if allOffline s then { s with handler := .check } else s
  | .closing =>
    -- CloseChildThreads joins the children; it returns when all have exited
    if s.workers.all (fun w => w = .stopped) then { s with handler := .stopped } else s
  | .stopped => s

/-- One step of worker i currently in phase w. -/
def wstepAt (s : PoolState) (i : Nat) (w : WPhase) : PoolState :=
  match w with
  | .check =>
    if s.coreTerminate then
      { s with workers := s.workers.set i .stopped }          -- break at line 397
    else if s.online.getD i false = false then
      { s with workers := s.workers.set i .waiting }          -- wait at line 399
    else
      { s with workers := s.workers.set i (.loaded s.curSeq) } -- fall through to line 402
  | .waiting =>
    -- the wait at line 399 is an if-based condition-variable wait with no
    -- predicate: it resumes on notify_all from the fan-out (lines 367-370)
    -- or from CloseChildThreads (lines 330-331), and may also wake
    -- spuriously, which std::condition_variable permits; in every case
    -- execution falls out of the lock block and reaches the load at
    -- line 402 without re-checking anything first
    { s with workers := s.workers.set i (.loaded s.curSeq) }
  | .loaded seq =>
    -- line 405: read the online flag; if set, run the loaded function
    -- (line 408): slot m_jobSlot = i + 1 of the job that m_job held at
    -- the load, recorded in the loaded phase as its sequence number
    if s.online.getD i false then
      { s with
        workers := s.workers.set i .clearing
        hist := s.hist ++ [⟨seq, i + 1, .worker i⟩] }
    else
      { s with workers := s.workers.set i .check }            -- skip; loop again
  | .clearing =>
    -- lines 409-411: clear the own online flag, notify the core
    { s with online := s.online.set i false, workers := s.workers.set i .check }
  | .stopped => s

/-- One step of worker i (no-op for an out-of-range index). -/
def wstep (s : PoolState) (i : Nat) : PoolState :=
  match s.workers.get? i with
  | none => s
  | some w => wstepAt s i w

/-- An atomic action of the whole system: a CoreHandler step, a step of
one worker, an Add by a caller, or a Close by a caller. -/
inductive Act where
  | hstep
  | wstep (i : Nat)
  /-- HWLocalThreadPool::Add (lines 216-219): push one job, notify_one -/
  | add
  /-- HWLocalThreadPool::Close, flag part (lines 224-229): set m_terminate,
  set m_waitToFinish to the argument, notify_all -/
  | close (finishQueue : Bool)
deriving DecidableEq, Repr

/-- The step function of the system. -/
def step (s : PoolState) : Act → PoolState
  | .hstep => hstep s
  | .wstep i => wstep s i
  | .add => { s with queue := s.queue + 1 }
  | .close fq => { s with terminate := true, waitToFinish := fq }

/-- Initial state of a core group with n workers, as the CoreHandler
constructor (lines 291-305) leaves it: every online flag clear, every
thread at the top of its loop, queue empty, no flags set. -/
def startState (n : Nat) : PoolState :=
  { handler := .check
    workers := List.replicate n .check
    online := List.replicate n false
    coreTerminate := false
    queue := 0
    terminate := false
    waitToFinish := false
    curSeq := 0
    hist := [] }

/-- The state after running a list of actions from the start state. -/
def run (n : Nat) (acts : List Act) : PoolState :=
  acts.foldl step (startState n)

/-- Number of recorded executions of slot number slot of job number k. -/
def cntH (hist : List Event) (k slot : Nat) : Nat :=
  hist.countP (fun e => e.seq == k && e.slot == slot)

/-- Number of recorded executions of slot number slot of job number k in
state s. -/
def cnt (s : PoolState) (k slot : Nat) : Nat := cntH s.hist k slot

/-- The interleaving driving the claims about job overlap and
slot-exactly-once, on a core group with one worker and two submitted
jobs.  Job 1 is processed normally (dequeue, fan-out, slot 0 on the
handler, slot 1 on the worker, flag cleared, drain).  The worker goes
back to its wait and wakes spuriously, loading the slot function while
m_job still holds job 1.  The handler then dequeues job 2 and fans out;
the worker reads its online flag as set, runs the stale job-1 function,
clears its flag, and the handler drains job 2 as if it were complete. -/
def staleTrace : List Act :=
  [.add, .add, .hstep, .hstep, .hstep, .wstep 0, .wstep 0, .wstep 0, .wstep 0, .wstep 0,
   .hstep, .hstep, .hstep, .hstep, .wstep 0, .wstep 0, .hstep]

/-! ### The claims about the core group -/

/-- C1: The claim states that the CoreHandler does not dequeue or begin
executing a next job until every WorkerThread online flag set for the
current job has been cleared again, so that no two jobs ever have slots
executing on the same core group at once.  The code violates the
conclusion: the worker wait at line 399 is an if-based condition-variable
wait with no predicate, so it can wake spuriously, and on any wake the
worker loads the slot function (line 402) BEFORE its online re-check,
which is itself performed without the lock (line 405).  Along staleTrace
a worker spuriously woken between two jobs loads the finished job-1 slot
function; when the handler dequeues job 2 and sets the flags, the worker
sees its flag set and executes the stale function during the processing
of job 2.  The recorded history is job 1 slot 0, job 1 slot 1, job 2
slot 0, job 1 slot 1: its job numbers are not monotone - a slot of job 1
executes inside the execution window of job 2, two jobs interleaved on
one core group. -/
theorem C1_stale_slot_interleaves_jobs :
    (run 1 staleTrace).hist =
      [⟨1, 0, .core⟩, ⟨1, 1, .worker 0⟩, ⟨2, 0, .core⟩, ⟨1, 1, .worker 0⟩] ∧
    ¬ (((run 1 staleTrace).hist.map Event.seq).Sorted (· ≤ ·)) ∧
    (run 1 staleTrace).curSeq = 2 ∧ (run 1 staleTrace).handler = .check := by
  decide

/-- C2: The claim states that for every dequeued job slot 0 is invoked by
the CoreHandler thread and slot i by the WorkerThread of identity i-1,
each slot of the job exactly once.  The stale-load race of staleTrace
refutes the exactly-once part: slot 1 of job 1 is executed twice (the
second time from the function loaded after a spurious wakeup, lines
399-405) while slot 1 of job 2 is never executed, although the handler
has drained job 2 and is back at the loop head between jobs
(curSeq = 2, queue empty) believing the job complete. -/
theorem C2_stale_slot_breaks_exactly_once :
    cnt (run 1 staleTrace) 1 1 = 2 ∧
    cnt (run 1 staleTrace) 2 1 = 0 ∧
    cnt (run 1 staleTrace) 2 0 = 1 ∧
    cnt (run 1 staleTrace) 1 0 = 1 ∧
    (run 1 staleTrace).curSeq = 2 ∧
    (run 1 staleTrace).handler = .check ∧
    (run 1 staleTrace).queue = 0 := by
  decide

/-- C3: The claim states that after Close(finishQueue = false) each
handler stops after at most the job it currently holds, leaving remaining
queued jobs undelivered.  The code violates this: a handler blocked in
the queue condition-variable wait (line 354) resumes after the wait and
reaches the Pop at line 357 WITHOUT re-testing the terminate condition,
so a job that was still queued when Close(false) ran is dequeued and
executed afterwards.  The trace below exhibits this: the handler blocks
on an empty queue, a job is added, Close(false) runs (terminate set,
waitToFinish clear, one job still queued, handler holding no job with
curSeq = 0); the woken handler then pops and fully executes that job
(curSeq becomes 1 and the execution history shows its slot-0 execution)
before exiting on its next loop iteration. -/
theorem C3_close_false_delivers_queued_job :
    (run 0 [.hstep, .add, .close false]).terminate = true ∧
    (run 0 [.hstep, .add, .close false]).waitToFinish = false ∧
    (run 0 [.hstep, .add, .close false]).queue = 1 ∧
    (run 0 [.hstep, .add, .close false]).curSeq = 0 ∧
    (run 0 [.hstep, .add, .close false]).handler = .waiting ∧
    (run 0 [.hstep, .add, .close false, .hstep, .hstep]).curSeq = 1 ∧
    (run 0 [.hstep, .add, .close false, .hstep, .hstep]).hist = [⟨1, 0, .core⟩] ∧
    (run 0 [.hstep, .add, .close false, .hstep, .hstep, .hstep, .hstep]).handler = .stopped := by
  decide

/-! ### The claims about the topology layer, construction and shutdown -/

/-- C4: The claim states that after a failed first OS topology query a
later call to GetNumHWCores or GetProcessorMask re-executes the query.
The code contradicts it: retCode in _GetSysLPMap is a function-local
static whose initialiser is the OS call, so the call runs exactly once in
the life of the process; after a first failure every later call re-enters
_GetSysLPMap, finds the cached failing retCode and fails again without
querying.  In an environment whose first query fails and whose second
would succeed, both calls return -1 and the query count stays at 1. -/
theorem C4_failed_query_cached_forever :
    (GetNumHWCores envFailThenOk TopoState.start).2 = -1 ∧
    (GetNumHWCores envFailThenOk TopoState.start).1.osCalls = 1 ∧
    (GetNumHWCores envFailThenOk (GetNumHWCores envFailThenOk TopoState.start).1).2 = -1 ∧
    (GetNumHWCores envFailThenOk (GetNumHWCores envFailThenOk TopoState.start).1).1.osCalls = 1 ∧
    envFailThenOk.queryResults 1 = some [3, 12] := by
  decide

/-- C5 counterexample: the claim states that a job whose slot count
differs from the configured threadsPerCore is rejected by Add with a
reported error and no side effect.  On a pool configured with
threadsPerCore = 2, Add with a 3-slot job enqueues it (Add has no failure
path at all), so the job IS enqueued and the state changes. -/
theorem C5_counterexample :
    (HWLocalThreadPool.Add ⟨2, []⟩ 3).queue = [3] ∧ (3 : Nat) ≠ 2 := by
  decide

/-- C5 amended: Add performs no slot-count validation: every submitted
job, whatever its slot count, is unconditionally appended to the queue
(and one handler notified); the pool configuration is untouched and no
error is reported.  A mismatched slot count is a caller contract whose
violation leads to out-of-bounds slot access in the workers. -/
theorem C5_amended (p : AddState) (j : Nat) :
    (HWLocalThreadPool.Add p j).queue = p.queue ++ [j] ∧
    (HWLocalThreadPool.Add p j).threadsPerCore = p.threadsPerCore :=
  ⟨rfl, rfl⟩

/-- C6: The claim states that construction aborts fatally when the
affinity-mask query fails for some core index.  The code instead executes
assert(0, "...") - a no-op under NDEBUG (and MSVC C4002 drops the second
macro argument) - and then plainly returns from the constructor, so the
caller receives a pool object with only the handlers before the failing
index constructed and started.  On a one-core topology with
NumOfCoresToUse = 2, the query for index 1 fails and the constructor
returns a pool claiming 2 handlers but holding only 1 constructed one. -/
theorem C6_partial_construction_on_mask_failure :
    (HWLocalThreadPool.construct envOneCore TopoState.start 2).2 =
      { numHWCores := 1, numCoreHandlers := 2, handlers := [3], returnedEarly := true } := by
  decide

/-- C7 counterexample: the claim states that a second Close performs no
further effect.  The code joins behind a joinable() guard (so no double
join) but re-executes free(m_coreHandlers) and delete[] on the second
call: the release count after two Closes is 2, not 1. -/
theorem C7_counterexample :
    (HWLocalThreadPool.Close (HWLocalThreadPool.Close freshShutdownState true) true).releases = 2 ∧
    (HWLocalThreadPool.Close freshShutdownState true).releases = 1 := by
  decide

/-- C7 amended: destroying the pool after an explicit Close is safe (the
destructor checks m_terminate and skips Close entirely), and a second
explicit Close performs no double-join (each join is guarded by
joinable()), but a second explicit Close does release the handler and
thread arrays again - Close itself is not idempotent. -/
theorem C7_amended (p : ShutdownState) (fq : Bool) :
    HWLocalThreadPool.destroy (HWLocalThreadPool.Close p fq) = HWLocalThreadPool.Close p fq ∧
    (HWLocalThreadPool.Close (HWLocalThreadPool.Close p fq) fq).joinsPerformed =
      (HWLocalThreadPool.Close p fq).joinsPerformed ∧
    (HWLocalThreadPool.Close (HWLocalThreadPool.Close p fq) fq).releases =
      (HWLocalThreadPool.Close p fq).releases + 1 := by
  refine ⟨?_, ?_, rfl⟩
  · simp [HWLocalThreadPool.destroy, HWLocalThreadPool.Close]
  · simp [HWLocalThreadPool.Close]

/-! ### The claim about the queue -/

theorem foldl_push (l : List Nat) : ∀ q : List Nat, l.foldl Queue.Push q = q ++ l := by
  induction l with
  | nil => exact fun q => by simp
  | cons a t ih =>
    intro q
    rw [List.foldl_cons, ih (Queue.Push q a)]
    simp [Queue.Push]

/-- C8: the job queue is FIFO: pushing a sequence of elements into an
empty queue yields them in submission order (Push appends at the tail);
Pop on a non-empty queue removes and returns the head - the earliest
pushed of the remaining elements - and reports success; Pop on an empty
queue reports empty (returning, not blocking) and leaves the queue
unchanged. -/
theorem C8_queue_fifo (l : List Nat) :
    (l.foldl Queue.Push [] = l) ∧
    (Queue.Pop ([] : List Nat) = (none, [])) ∧
    (∀ x xs, l = x :: xs → Queue.Pop l = (some x, xs) ∧ Queue.Size l = xs.length + 1) := by
  refine ⟨by simpa using foldl_push l [], rfl, ?_⟩
  rintro x xs rfl
  exact ⟨rfl, by simp [Queue.Size]⟩

theorem C8_queue_fifo_witness :
    ([5, 7].foldl Queue.Push [] = [5, 7]) ∧
    (Queue.Pop ([] : List Nat) = (none, [])) ∧
    (Queue.Pop [5, 7] = (some 5, [7]) ∧ Queue.Size [5, 7] = 2) := by
  refine ⟨(C8_queue_fifo [5, 7]).1, (C8_queue_fifo [5, 7]).2.1, ?_⟩
  have := (C8_queue_fifo [5, 7]).2.2 5 [7] rfl
  simpa using this

/-! ### The claim about construction parameters -/

/-- C9 counterexample: the claim states that a threadsPerCore parameter
of 0 or less resolves to LogicalProcessorCount / coresToUse.  With 8
logical processors and 4 cores that quotient is 2, but the pool uses the
template parameter as-is: with NumThreadsPerCore = 0 the per-core thread
count stays 0 and the unsigned m_numChildThreads field receives 0 - 1,
wrapping to 4294967295. -/
theorem C9_counterexample :
    poolThreadsPerCore 0 = 0 ∧ ((8 : Int) / 4 = 2) ∧ ((0 : Int) ≠ 2) ∧
    coreHandlerNumChildThreads 0 = 4294967295 := by
  decide

/-- C9 amended: a coresToUse parameter of 0 or less resolves to the
number of physical cores and a positive one is used as given (fixed
thereafter: the model is a pure function of the construction inputs);
the threadsPerCore parameter is used exactly as given, with no derivation
from the logical processor count for non-positive values. -/
theorem C9_amended (c : Int) (hw : Nat) (t : Int) :
    (c ≤ 0 → resolveNumCoreHandlers c hw = hw) ∧
    (0 < c → resolveNumCoreHandlers c hw = c.toNat) ∧
    poolThreadsPerCore t = t := by
  refine ⟨fun hc => ?_, fun hc => ?_, rfl⟩
  · simp [resolveNumCoreHandlers, hc]
  · simp [resolveNumCoreHandlers, not_le.2 hc]

theorem C9_amended_witness :
    resolveNumCoreHandlers (-1) 8 = 8 ∧ resolveNumCoreHandlers 4 8 = 4 ∧
    poolThreadsPerCore 2 = 2 :=
  ⟨(C9_amended (-1) 8 2).1 (by decide), (C9_amended 4 8 2).2.1 (by decide),
   (C9_amended 4 8 2).2.2⟩

/-! ### The claim about RoundUpPwr2 -/

theorem high_mask_as_shift {k : Nat} (hk : k ≤ 32) :
    2 ^ 32 - 2 ^ k = (2 ^ (32 - k) - 1) <<< k := by
  rw [Nat.shiftLeft_eq, Nat.sub_mul, one_mul, ← Nat.pow_add, Nat.sub_add_cancel hk]

theorem xor_high_mask {k : Nat} (hk : k ≤ 32) :
    (2 ^ 32 - 1) ^^^ (2 ^ k - 1) = 2 ^ 32 - 2 ^ k := by
  rw [high_mask_as_shift hk]
  apply Nat.eq_of_testBit_eq
  intro i
  rw [Nat.testBit_xor, Nat.testBit_two_pow_sub_one, Nat.testBit_two_pow_sub_one,
    Nat.testBit_shiftLeft, Nat.testBit_two_pow_sub_one]
  by_cases hik : k ≤ i
  · by_cases hi32 : i < 32
    · have h1 : ¬(i < k) := by omega
      have h2 : i - k < 32 - k := by omega
      simp [hi32, h1, h2, hik]
    · have h1 : ¬(i < k) := by omega
      have h2 : ¬(i - k < 32 - k) := by omega
      simp [hi32, h1, h2, hik]
  · have h1 : i < k := by omega
    have h2 : i < 32 := by omega
    simp [h1, h2, hik]

theorem land_high_mask {x k : Nat} (hk : k ≤ 32) (hx : x < 2 ^ 32) :
    x &&& (2 ^ 32 - 2 ^ k) = 2 ^ k * (x / 2 ^ k) := by
  have hrhs : 2 ^ k * (x / 2 ^ k) = (x >>> k) <<< k := by
    rw [Nat.shiftLeft_eq, Nat.shiftRight_eq_div_pow, Nat.mul_comm]
  rw [high_mask_as_shift hk, hrhs]
  apply Nat.eq_of_testBit_eq
  intro i
  rw [Nat.testBit_land, Nat.testBit_shiftLeft, Nat.testBit_shiftLeft, Nat.testBit_shiftRight,
    Nat.testBit_two_pow_sub_one]
  by_cases hik : k ≤ i
  · have hadd : k + (i - k) = i := by omega
    rw [hadd]
    by_cases hi32 : i < 32
    · have h2 : i - k < 32 - k := by omega
      simp [hik, h2]
    · have h2 : ¬(i - k < 32 - k) := by omega
      have h3 : x.testBit i = false :=
        Nat.testBit_eq_false_of_lt
          (lt_of_lt_of_le hx (Nat.pow_le_pow_right (by omega) (by omega)))
      simp [hik, h2, h3]
  · simp [hik]

/-- C10: for every unsigned val and every pwr2 that is a power of two
(with val + pwr2 - 1 not overflowing 32 bits), RoundUpPwr2 returns the
smallest multiple of pwr2 that is greater than or equal to val. -/
theorem C10_roundUpPwr2 (val k : Nat) (hk : k < 32) (hof : val + 2 ^ k - 1 < 2 ^ 32) :
    2 ^ k ∣ RoundUpPwr2 val (2 ^ k) ∧
    val ≤ RoundUpPwr2 val (2 ^ k) ∧
    ∀ m, 2 ^ k ∣ m → val ≤ m → RoundUpPwr2 val (2 ^ k) ≤ m := by
  have h1 : 1 ≤ 2 ^ k := Nat.one_le_two_pow
  have hkk : k ≤ 32 := by omega
  have hk32 : 2 ^ k ≤ 2 ^ 32 := Nat.pow_le_pow_right (by omega) hkk
  have hA : val + (2 ^ k - 1) < 2 ^ 32 := by omega
  have hsm : 2 ^ k - 1 < 2 ^ 32 := by omega
  have hrw : RoundUpPwr2 val (2 ^ k) =
      2 ^ k * ((val + (2 ^ k - 1)) / 2 ^ k) := by
    rw [RoundUpPwr2, Nat.mod_eq_of_lt hA, Nat.mod_eq_of_lt hsm, xor_high_mask hkk,
      land_high_mask hkk hA]
  set A := val + (2 ^ k - 1) with hAdef
  have hdm := Nat.div_add_mod A (2 ^ k)
  have hmod : A % 2 ^ k < 2 ^ k := Nat.mod_lt _ (by omega)
  rw [hrw]
  refine ⟨Dvd.intro _ rfl, by omega, ?_⟩
  intro m hm hvm
  obtain ⟨t, rfl⟩ := hm
  have hlt : A < 2 ^ k * (t + 1) := by
    rw [Nat.mul_add, Nat.mul_one]
    omega
  have hle : A / 2 ^ k ≤ t := by
    by_contra hc
    push_neg at hc
    have hmul : 2 ^ k * (t + 1) ≤ 2 ^ k * (A / 2 ^ k) := Nat.mul_le_mul_left _ hc
    have hself : 2 ^ k * (A / 2 ^ k) ≤ A := by
      rw [Nat.mul_comm]
      exact Nat.div_mul_le_self A (2 ^ k)
    exact absurd (lt_of_lt_of_le hlt (le_trans hmul hself)) (lt_irrefl A)
  exact Nat.mul_le_mul_left _ hle

theorem C10_roundUpPwr2_witness :
    2 ^ 2 ∣ RoundUpPwr2 5 (2 ^ 2) ∧ 5 ≤ RoundUpPwr2 5 (2 ^ 2) ∧
    RoundUpPwr2 5 (2 ^ 2) ≤ 8 := by
  obtain ⟨a, b, c⟩ := C10_roundUpPwr2 5 2 (by decide) (by decide)
  exact ⟨a, b, c 8 (by decide) (by decide)⟩

end CppMatmul
